import Mathlib

/-!
Verification of the cadastro-backend record-management server.

The server keeps a table of person records (pessoas) with a serial
identifier and a mandatory unique natural key (cnsCpf).  Three variants
exist in the source: a PostgreSQL minimal-schema variant, a SQLite
minimal-schema variant, and a PostgreSQL extended-schema variant.  The
definitions below embed the table state, the SQL statement semantics
used by the handlers (plain INSERT, INSERT ... ON CONFLICT (cnsCpf)
DO NOTHING, INSERT OR IGNORE, UPDATE, DELETE), and the HTTP handlers
themselves (status codes and JSON bodies), faithfully to the source.
-/

/-- A candidate person record as sent in a request body (minimal schema):
every field of req.body may be absent, which the driver binds as NULL. -/
structure Registro where
  nome : Option String
  email : Option String
  telefone : Option String
  cnsCpf : Option String
  nascimento : Option String
  cep : Option String
  logradouro : Option String
  numero : Option String
  bairro : Option String
deriving DecidableEq, Repr

/-- A stored row of the pessoas table (minimal schema).  Columns nome,
email and cnsCpf are NOT NULL; the rest are nullable.  id is the SERIAL
primary key. -/
structure Row where
  id : Nat
  nome : String
  email : String
  telefone : Option String
  cnsCpf : String
  nascimento : Option String
  cep : Option String
  logradouro : Option String
  numero : Option String
  bairro : Option String
deriving DecidableEq, Repr

/-- The pessoas table: its rows in insertion order plus the next value
of the SERIAL id sequence (starting at 1). -/
structure Table where
  rows : List Row
  nextId : Nat
deriving DecidableEq, Repr

/-- The freshly created table (CREATE TABLE IF NOT EXISTS on first start). -/
def emptyTable : Table := { rows := [], nextId := 1 }

/-- Does some row already carry this natural-key value? -/
def Table.hasKey (t : Table) (k : String) : Bool :=
  t.rows.any (fun row => row.cnsCpf == k)

/-- Append a row and advance the id sequence. -/
def Table.insertRow (t : Table) (row : Row) : Table :=
  { rows := t.rows ++ [row], nextId := t.nextId + 1 }

/-- The row a successful INSERT builds from a candidate: each named
request field is bound into the column of the same name; the id comes
from the sequence.  (The NOT NULL columns are only read through this
after the null checks have passed.) -/
def rowOfRegistro (id : Nat) (r : Registro) : Row :=
  { id := id
    nome := r.nome.getD ""
    email := r.email.getD ""
    telefone := r.telefone
    cnsCpf := r.cnsCpf.getD ""
    nascimento := r.nascimento
    cep := r.cep
    logradouro := r.logradouro
    numero := r.numero
    bairro := r.bairro }

/-- Errors the PostgreSQL driver reports to the handlers.  Each carries
enough to recover the code the driver attaches (error.code) and the
message text (error.message). -/
inductive PgError where
  | notNullViolation (column : String)
  | uniqueViolation (constraintName : String)
  | connectionFailure (msg : String)
deriving DecidableEq, Repr

/-- The value of error.code: 23502 for a not-null violation, 23505 for a
unique violation, a transport code otherwise. -/
def PgError.code : PgError → String
  | .notNullViolation _ => "23502"
  | .uniqueViolation _ => "23505"
  | .connectionFailure _ => "ECONNREFUSED"

/-- The value of error.message. -/
def PgError.message : PgError → String
  | .notNullViolation column =>
      "null value in column " ++ column ++ " violates not-null constraint"
  | .uniqueViolation constraintName =>
      "duplicate key value violates unique constraint " ++ constraintName
  | .connectionFailure msg => msg

/-- Is this error a uniqueness-constraint violation? -/
def PgError.isUniqueViolation : PgError → Bool
  | .uniqueViolation _ => true
  | _ => false

/-- The NOT NULL constraint check performed when a tuple for the pessoas
table is formed: nome, email and cnsCpf must be present. -/
def notNullCheck (r : Registro) : Option PgError :=
  if r.nome.isNone then some (.notNullViolation "nome")
  else if r.email.isNone then some (.notNullViolation "email")
  else if r.cnsCpf.isNone then some (.notNullViolation "cnscpf")
  else none

/-- Semantics of the plain INSERT used by the create handler: NOT NULL
checks, then the UNIQUE (cnsCpf) index check (error 23505 on collision),
then the row is appended and returned (RETURNING *). -/
def pgInsert (t : Table) (r : Registro) : Except PgError (Table × Row) :=
  match notNullCheck r with
  | some e => .error e
  | none =>
    if t.hasKey (r.cnsCpf.getD "") then
      .error (.uniqueViolation "pessoas_cnscpf_key")
    else
      let row := rowOfRegistro t.nextId r
      .ok (t.insertRow row, row)

/-- Semantics of INSERT ... ON CONFLICT (cnsCpf) DO NOTHING used by the
batch importer: NOT NULL violations still raise an error, but a
natural-key collision silently inserts nothing (rowCount 0). -/
def pgInsertOnConflictDoNothing (t : Table) (r : Registro) :
    Except PgError (Table × Nat) :=
  match notNullCheck r with
  | some e => .error e
  | none =>
    if t.hasKey (r.cnsCpf.getD "") then .ok (t, 0)
    else .ok (t.insertRow (rowOfRegistro t.nextId r), 1)

/-- A JSON response body: an object of string fields, a serialized row,
or the empty body of a 204. -/
inductive Body where
  | json (fields : List (String × String))
  | record (row : Row)
  | empty
deriving DecidableEq, Repr

/-- Field access on an object body. -/
def Body.lookupField : Body → String → Option String
  | .json fields, k => fields.lookup k
  | _, _ => none

/-- An HTTP response: status code and body. -/
structure HttpResponse where
  status : Nat
  body : Body
deriving DecidableEq, Repr

/-- The catch block of the create handler (pg variants): error code
23505 is reclassified as a 409 duplicate-key conflict, everything else
becomes a 500, both carrying the original error message. -/
def pgCreateCatch (e : PgError) : HttpResponse :=
  if PgError.code e = "23505" then
    { status := 409
      body := .json [("message", "Erro: CNS/CPF já cadastrado."),
                     ("error", PgError.message e)] }
  else
    { status := 500
      body := .json [("message", "Erro ao criar pessoa."),
                     ("error", PgError.message e)] }

/-- POST /api/pessoas (pg minimal variant): run the INSERT; on success
201 with the created row, otherwise the catch classification.  Returns
the response together with the table afterwards. -/
def createHandler (t : Table) (r : Registro) : HttpResponse × Table :=
  match pgInsert t r with
  | .ok (t', row) => ({ status := 201, body := .record row }, t')
  | .error e => (pgCreateCatch e, t)

/-- The catch block of the update handler (pg variants). -/
def pgUpdateCatch (e : PgError) : HttpResponse :=
  if PgError.code e = "23505" then
    { status := 409
      body := .json [("message", "Erro: CNS/CPF já cadastrado em outro registro."),
                     ("error", PgError.message e)] }
  else
    { status := 500
      body := .json [("message", "Erro ao atualizar pessoa."),
                     ("error", PgError.message e)] }

/-- Semantics of the UPDATE ... WHERE id statement: if no row matches
the id the statement affects zero rows (ok none); otherwise the new
tuple passes the NOT NULL checks and the UNIQUE (cnsCpf) check against
the other rows, and every field of the matching row is replaced. -/
def pgUpdate (t : Table) (id : Nat) (r : Registro) :
    Except PgError (Option (Table × Row)) :=
  if t.rows.any (fun row => row.id == id) then
    match notNullCheck r with
    | some e => .error e
    | none =>
      if t.rows.any (fun row => row.id != id && row.cnsCpf == r.cnsCpf.getD "") then
        .error (.uniqueViolation "pessoas_cnscpf_key")
      else
        let newRow := rowOfRegistro id r
        .ok (some ({ t with rows := t.rows.map (fun row => if row.id == id then newRow else row) }, newRow))
  else
    .ok none

/-- PUT /api/pessoas/:id (pg minimal variant): 404 with a message-only
body when no row matched, 200 with the updated row on success, the
catch classification on error. -/
def updateHandler (t : Table) (id : Nat) (r : Registro) : HttpResponse × Table :=
  match pgUpdate t id r with
  | .ok none => ({ status := 404, body := .json [("message", "Pessoa não encontrada.")] }, t)
  | .ok (some (t', row)) => ({ status := 200, body := .record row }, t')
  | .error e => (pgUpdateCatch e, t)

/-- The catch block of the delete handler (pg variants). -/
def pgDeleteCatch (e : PgError) : HttpResponse :=
  { status := 500
    body := .json [("message", "Erro ao deletar pessoa."),
                   ("error", PgError.message e)] }

/-- DELETE /api/pessoas/:id: 404 with a message-only body when no row
matched, otherwise the row is removed and a 204 empty body returned. -/
def deleteHandler (t : Table) (id : Nat) : HttpResponse × Table :=
  if t.rows.any (fun row => row.id == id) then
    ({ status := 204, body := .empty },
     { t with rows := t.rows.filter (fun row => row.id != id) })
  else
    ({ status := 404, body := .json [("message", "Pessoa não encontrada.")] }, t)

/-- The terminal states of one batch-import invocation: the transaction
either committed with a count (and the new table), or rolled back with
the causing error (and the table as it was). -/
inductive BatchOutcome where
  | committed (importedCount : Nat) (t : Table)
  | rolledBack (cause : PgError) (t : Table)
deriving DecidableEq, Repr

/-- The for-of loop of the batch importer: one conditional insert per
candidate in sequence order, incrementing the count when rowCount is
positive; the first error aborts the loop. -/
def importBatchLoop (t : Table) (count : Nat) :
    List Registro → Except PgError (Nat × Table)
  | [] => .ok (count, t)
  | r :: rs =>
    match pgInsertOnConflictDoNothing t r with
    | .error e => .error e
    | .ok (t', n) => importBatchLoop t' (count + n) rs

/-- The batch importer transaction: BEGIN, the loop, then COMMIT on
success or ROLLBACK (restoring the incoming table) on error. -/
def importBatch (t : Table) (batch : List Registro) : BatchOutcome :=
  match importBatchLoop t 0 batch with
  | .ok (c, t') => .committed c t'
  | .error e => .rolledBack e t

/-- POST /api/pessoas/batch-import (pg minimal variant): 201 with a
message embedding the count on commit, 500 with message and error text
on rollback. -/
def batchImportHandler (t : Table) (batch : List Registro) : HttpResponse × Table :=
  match importBatch t batch with
  | .committed c t' =>
      ({ status := 201
         body := .json [("message", toString c ++ " registros importados com sucesso.")] }, t')
  | .rolledBack e t' =>
      ({ status := 500
         body := .json [("message", "Erro durante a importação em massa."),
                        ("error", PgError.message e)] }, t')

/-! ### SQLite variant

The SQLite driver attaches a single code, SQLITE_CONSTRAINT, to every
constraint violation (unique, not-null, check alike), which the handlers
compare against.  INSERT OR IGNORE skips any row whose insertion would
violate a constraint, reporting zero changes for it. -/

/-- Errors the sqlite3 driver reports: error.code is SQLITE_CONSTRAINT
for every constraint violation, a distinct code for transport failures. -/
inductive SqliteError where
  | constraintUnique (msg : String)
  | constraintNotNull (msg : String)
  | ioFailure (msg : String)
deriving DecidableEq, Repr

/-- The value of error.code in the sqlite3 driver. -/
def SqliteError.code : SqliteError → String
  | .constraintUnique _ => "SQLITE_CONSTRAINT"
  | .constraintNotNull _ => "SQLITE_CONSTRAINT"
  | .ioFailure _ => "SQLITE_IOERR"

/-- The value of error.message. -/
def SqliteError.message : SqliteError → String
  | .constraintUnique msg => msg
  | .constraintNotNull msg => msg
  | .ioFailure msg => msg

/-- Is this error specifically a uniqueness-constraint violation? -/
def SqliteError.isUniqueViolation : SqliteError → Bool
  | .constraintUnique _ => true
  | _ => false

/-- The catch block of the create handler (sqlite variant): any error
whose code is SQLITE_CONSTRAINT becomes a 409 duplicate-key conflict,
everything else a 500. -/
def sqliteCreateCatch (e : SqliteError) : HttpResponse :=
  if SqliteError.code e = "SQLITE_CONSTRAINT" then
    { status := 409
      body := .json [("message", "Erro: CNS/CPF já cadastrado."),
                     ("error", SqliteError.message e)] }
  else
    { status := 500
      body := .json [("message", "Erro ao criar pessoa."),
                     ("error", SqliteError.message e)] }

/-- The catch block of the update handler (sqlite variant). -/
def sqliteUpdateCatch (e : SqliteError) : HttpResponse :=
  if SqliteError.code e = "SQLITE_CONSTRAINT" then
    { status := 409
      body := .json [("message", "Erro: CNS/CPF já cadastrado em outro registro."),
                     ("error", SqliteError.message e)] }
  else
    { status := 500
      body := .json [("message", "Erro ao atualizar pessoa."),
                     ("error", SqliteError.message e)] }

/-- Semantics of INSERT OR IGNORE used by the sqlite batch importer:
a candidate violating any constraint (missing NOT NULL field or
duplicate natural key) is skipped with zero changes; otherwise the row
is inserted with one change.  No error is ever raised for a
constraint. -/
def sqliteInsertOrIgnore (t : Table) (r : Registro) : Table × Nat :=
  if r.nome.isNone || r.email.isNone || r.cnsCpf.isNone then (t, 0)
  else if t.hasKey (r.cnsCpf.getD "") then (t, 0)
  else (t.insertRow (rowOfRegistro t.nextId r), 1)

/-- The sqlite batch-import loop: one INSERT OR IGNORE per candidate in
sequence order, counting the candidates with positive changes. -/
def sqliteImportBatch (t : Table) : List Registro → Nat × Table
  | [] => (0, t)
  | r :: rs =>
    let (t', n) := sqliteInsertOrIgnore t r
    let (c, t'') := sqliteImportBatch t' rs
    (n + c, t'')

/-! ### Connection/transaction event trace of the pg batch importer -/

/-- The pool and transaction commands the batch-import handler issues,
in order: pool.connect, BEGIN, one INSERT per processed candidate,
COMMIT or ROLLBACK, client.release. -/
inductive DbEvent where
  | connectEv
  | beginEv
  | insertEv
  | commitEv
  | rollbackEv
  | releaseEv
deriving DecidableEq, Repr

/-- The loop together with the INSERT commands it issues (one per
candidate processed, the erroring one included). -/
def importBatchLoopTrace (t : Table) (count : Nat) :
    List Registro → List DbEvent × Except PgError (Nat × Table)
  | [] => ([], .ok (count, t))
  | r :: rs =>
    match pgInsertOnConflictDoNothing t r with
    | .error e => ([DbEvent.insertEv], .error e)
    | .ok (t', n) =>
      let rest := importBatchLoopTrace t' (count + n) rs
      (DbEvent.insertEv :: rest.1, rest.2)

/-- The full command trace of one batch-import invocation: connect and
BEGIN, the loop, then COMMIT (try block completed) or ROLLBACK (catch
block), and finally client.release (finally block). -/
def batchImportTrace (t : Table) (batch : List Registro) : List DbEvent :=
  DbEvent.connectEv :: DbEvent.beginEv ::
    (match importBatchLoopTrace t 0 batch with
     | (evs, Except.ok _) => evs ++ [DbEvent.commitEv, DbEvent.releaseEv]
     | (evs, Except.error _) => evs ++ [DbEvent.rollbackEv, DbEvent.releaseEv])

/-! ### Extended-schema variant

The third variant widens the pessoas table to 31 named columns.  Its
create and batch-import handlers each issue an INSERT whose column list
and value list are given positionally; the two statements list the
columns in different orders (telefone in particular), so we embed each
statement as the association of column names to the bound request
fields, in the order written in the source. -/

/-- A candidate record of the extended schema (named request fields,
all possibly absent).  The source column horario is the field
horarioField here. -/
structure ExtRegistro where
  data_cadastro : Option String
  nome : Option String
  email : Option String
  cnsCpf : Option String
  sexo : Option String
  data_nascimento : Option String
  nacionalidade : Option String
  raca_cor : Option String
  etnia : Option String
  cep : Option String
  logradouro : Option String
  numero : Option String
  bairro_corrego : Option String
  complemento : Option String
  cod_logradouro : Option String
  cidade : Option String
  uf : Option String
  telefone : Option String
  data_atendimento : Option String
  local_atendimento : Option String
  distancia_km : Option String
  procedimentos : Option String
  horarioField : Option String
  tipo_atendimento : Option String
  tipo_atendimento_cod : Option String
  transporte : Option String
  motorista : Option String
  hora_saida : Option String
  paciente_principal : Option String
  acompanhantes_vinculados : Option String
  observacao : Option String

/-- A stored row of the extended pessoas table: the id plus the same
named columns. -/
structure ExtRow where
  id : Nat
  dados : ExtRegistro

/-- Column list of the INSERT in the extended create handler, in source
order. -/
def extCreateCols : List String :=
  ["data_cadastro", "nome", "email", "cnsCpf", "sexo", "data_nascimento",
   "nacionalidade", "raca_cor", "etnia", "cep", "logradouro", "numero",
   "bairro_corrego", "complemento", "cod_logradouro", "cidade", "uf",
   "telefone", "data_atendimento", "local_atendimento", "distancia_km",
   "procedimentos", "horario", "tipo_atendimento", "tipo_atendimento_cod",
   "transporte", "motorista", "hora_saida", "paciente_principal",
   "acompanhantes_vinculados", "observacao"]

/-- Bound values of the INSERT in the extended create handler, in the
order of its placeholders. -/
def extCreateVals (r : ExtRegistro) : List (Option String) :=
  [r.data_cadastro, r.nome, r.email, r.cnsCpf, r.sexo, r.data_nascimento,
   r.nacionalidade, r.raca_cor, r.etnia, r.cep, r.logradouro, r.numero,
   r.bairro_corrego, r.complemento, r.cod_logradouro, r.cidade, r.uf,
   r.telefone, r.data_atendimento, r.local_atendimento, r.distancia_km,
   r.procedimentos, r.horarioField, r.tipo_atendimento, r.tipo_atendimento_cod,
   r.transporte, r.motorista, r.hora_saida, r.paciente_principal,
   r.acompanhantes_vinculados, r.observacao]

/-- Column list of the INSERT in the extended batch-import handler, in
source order (telefone sits at a different position here). -/
def extBatchCols : List String :=
  ["data_cadastro", "nome", "email", "telefone", "cnsCpf", "sexo",
   "data_nascimento", "nacionalidade", "raca_cor", "etnia", "cep",
   "logradouro", "numero", "bairro_corrego", "complemento",
   "cod_logradouro", "cidade", "uf", "data_atendimento",
   "local_atendimento", "distancia_km", "procedimentos", "horario",
   "tipo_atendimento", "tipo_atendimento_cod", "transporte", "motorista",
   "hora_saida", "paciente_principal", "acompanhantes_vinculados",
   "observacao"]

/-- Bound values of the INSERT in the extended batch-import handler, in
the order of its placeholders. -/
def extBatchVals (r : ExtRegistro) : List (Option String) :=
  [r.data_cadastro, r.nome, r.email, r.telefone, r.cnsCpf, r.sexo,
   r.data_nascimento, r.nacionalidade, r.raca_cor, r.etnia, r.cep,
   r.logradouro, r.numero, r.bairro_corrego, r.complemento,
   r.cod_logradouro, r.cidade, r.uf, r.data_atendimento,
   r.local_atendimento, r.distancia_km, r.procedimentos, r.horarioField,
   r.tipo_atendimento, r.tipo_atendimento_cod, r.transporte, r.motorista,
   r.hora_saida, r.paciente_principal, r.acompanhantes_vinculados,
   r.observacao]

/-- The column-to-value binding an INSERT statement establishes: the
i-th listed column receives the i-th bound value. -/
def insertAssoc (cols : List String) (vals : List (Option String)) :
    List (String × Option String) :=
  cols.zip vals

/-- The value a column receives from a column-to-value binding (NULL
when the statement does not mention the column). -/
def assocGet (m : List (String × Option String)) (k : String) : Option String :=
  (m.lookup k).getD none

/-- Rebuild a record from a column-to-value binding, column by named
column (the store writes each bound value into the column of that
name, regardless of its position in the statement). -/
def registroFromAssoc (m : List (String × Option String)) : ExtRegistro :=
  { data_cadastro := assocGet m "data_cadastro"
    nome := assocGet m "nome"
    email := assocGet m "email"
    cnsCpf := assocGet m "cnsCpf"
    sexo := assocGet m "sexo"
    data_nascimento := assocGet m "data_nascimento"
    nacionalidade := assocGet m "nacionalidade"
    raca_cor := assocGet m "raca_cor"
    etnia := assocGet m "etnia"
    cep := assocGet m "cep"
    logradouro := assocGet m "logradouro"
    numero := assocGet m "numero"
    bairro_corrego := assocGet m "bairro_corrego"
    complemento := assocGet m "complemento"
    cod_logradouro := assocGet m "cod_logradouro"
    cidade := assocGet m "cidade"
    uf := assocGet m "uf"
    telefone := assocGet m "telefone"
    data_atendimento := assocGet m "data_atendimento"
    local_atendimento := assocGet m "local_atendimento"
    distancia_km := assocGet m "distancia_km"
    procedimentos := assocGet m "procedimentos"
    horarioField := assocGet m "horario"
    tipo_atendimento := assocGet m "tipo_atendimento"
    tipo_atendimento_cod := assocGet m "tipo_atendimento_cod"
    transporte := assocGet m "transporte"
    motorista := assocGet m "motorista"
    hora_saida := assocGet m "hora_saida"
    paciente_principal := assocGet m "paciente_principal"
    acompanhantes_vinculados := assocGet m "acompanhantes_vinculados"
    observacao := assocGet m "observacao" }

/-- The row an INSERT with the given column and value lists stores. -/
def extRowFromInsert (id : Nat) (cols : List String)
    (vals : List (Option String)) : ExtRow :=
  { id := id, dados := registroFromAssoc (insertAssoc cols vals) }

/-! ### Invariants and auxiliary state functions -/

/-- The natural-key uniqueness invariant: no two rows of the table share
a cnsCpf value. -/
def keysUnique (t : Table) : Prop :=
  t.rows.Pairwise (fun a b => a.cnsCpf ≠ b.cnsCpf)

/-- The table after a sequence of create calls, each applied to the
state the previous one left. -/
def applyCreates (t : Table) : List Registro → Table
  | [] => t
  | r :: rs => applyCreates (createHandler t r).2 rs

/-! ### Concrete fixtures used to instantiate the theorems -/

/-- A candidate with every field absent: its insertion violates the
NOT NULL constraints. -/
def badReg : Registro :=
  { nome := none, email := none, telefone := none, cnsCpf := none,
    nascimento := none, cep := none, logradouro := none, numero := none,
    bairro := none }

/-- A well-formed candidate with natural key 11111111111. -/
def regKey1 : Registro :=
  { nome := some "Ana", email := some "ana@mail", telefone := none,
    cnsCpf := some "11111111111", nascimento := none, cep := none,
    logradouro := none, numero := none, bairro := none }

/-- A well-formed candidate with natural key 22222222222. -/
def regKey2 : Registro :=
  { nome := some "Bia", email := some "bia@mail", telefone := none,
    cnsCpf := some "22222222222", nascimento := none, cep := none,
    logradouro := none, numero := none, bairro := none }

/-- A second well-formed candidate carrying natural key 11111111111 but
a different payload. -/
def regKey1Other : Registro :=
  { nome := some "Caio", email := some "caio@mail", telefone := none,
    cnsCpf := some "11111111111", nascimento := none, cep := none,
    logradouro := none, numero := none, bairro := none }

/-- A stored row with natural key 9. -/
def rowKey9 : Row :=
  { id := 1, nome := "Zoe", email := "zoe@mail", telefone := none,
    cnsCpf := "9", nascimento := none, cep := none, logradouro := none,
    numero := none, bairro := none }

/-- A one-row table holding rowKey9. -/
def tableKey9 : Table := { rows := [rowKey9], nextId := 2 }

/-- A well-formed candidate colliding with rowKey9 on the natural key. -/
def regKey9 : Registro :=
  { nome := some "Yan", email := some "yan@mail", telefone := none,
    cnsCpf := some "9", nascimento := none, cep := none,
    logradouro := none, numero := none, bairro := none }

/-- Candidate A of the first-wins scenario: natural key 1. -/
def regA1 : Registro :=
  { nome := some "Alda", email := some "alda@mail", telefone := none,
    cnsCpf := some "1", nascimento := none, cep := none,
    logradouro := none, numero := none, bairro := none }

/-- Candidate B of the first-wins scenario: natural key 2. -/
def regB2 : Registro :=
  { nome := some "Breno", email := some "breno@mail", telefone := none,
    cnsCpf := some "2", nascimento := none, cep := none,
    logradouro := none, numero := none, bairro := none }

/-- Candidate C of the first-wins scenario: natural key 1 again, with a
payload different from that of A. -/
def regC1 : Registro :=
  { nome := some "Cora", email := some "cora@mail", telefone := none,
    cnsCpf := some "1", nascimento := none, cep := none,
    logradouro := none, numero := none, bairro := none }

/-! ### Helper lemmas -/

/-- A successful conditional insert grows the table by exactly its
reported rowCount. -/
theorem pgInsertOnConflict_len (t : Table) (r : Registro) (t' : Table) (n : Nat)
    (h : pgInsertOnConflictDoNothing t r = Except.ok (t', n)) :
    t'.rows.length = t.rows.length + n := by
  unfold pgInsertOnConflictDoNothing at h
  cases hnc : notNullCheck r with
  | some e => rw [hnc] at h; exact absurd h (by simp)
  | none =>
    rw [hnc] at h
    cases hk : t.hasKey (r.cnsCpf.getD "") with
    | true => simp [hk] at h; obtain ⟨rfl, rfl⟩ := h; simp
    | false => simp [hk] at h; obtain ⟨rfl, rfl⟩ := h; simp [Table.insertRow]

/-- Along the batch loop, the table grows by exactly the amount the
count grows. -/
theorem importBatchLoop_len (rs : List Registro) (t : Table) (c0 c : Nat) (t' : Table)
    (h : importBatchLoop t c0 rs = Except.ok (c, t')) :
    t'.rows.length + c0 = t.rows.length + c := by
  induction rs generalizing t c0 with
  | nil =>
    unfold importBatchLoop at h
    simp at h
    obtain ⟨rfl, rfl⟩ := h
    omega
  | cons r rs ih =>
    unfold importBatchLoop at h
    cases hins : pgInsertOnConflictDoNothing t r with
    | error e => rw [hins] at h; exact absurd h (by simp)
    | ok p =>
      obtain ⟨t1, n⟩ := p
      rw [hins] at h
      have hlen := pgInsertOnConflict_len t r t1 n hins
      have hrec := ih t1 (c0 + n) h
      omega

/-- One INSERT OR IGNORE grows the table by exactly its reported
change count. -/
theorem sqliteInsertOrIgnore_len (t : Table) (r : Registro) :
    ((sqliteInsertOrIgnore t r).1).rows.length
      = t.rows.length + (sqliteInsertOrIgnore t r).2 := by
  unfold sqliteInsertOrIgnore
  split
  · simp
  · split
    · simp
    · simp [Table.insertRow]

/-- The sqlite batch loop grows the table by exactly the count it
reports. -/
theorem sqliteImportBatch_len (rs : List Registro) (t : Table) :
    ((sqliteImportBatch t rs).2).rows.length
      = t.rows.length + (sqliteImportBatch t rs).1 := by
  induction rs generalizing t with
  | nil => simp [sqliteImportBatch]
  | cons r rs ih =>
    unfold sqliteImportBatch
    have h1 := sqliteInsertOrIgnore_len t r
    have h2 := ih (sqliteInsertOrIgnore t r).1
    simp only []
    omega

/-! ### Claim theorems -/

/-- Claim C1: when a batch commits, the reported count equals exactly
the number of candidates whose insert produced a new row (the table
grew by exactly the count); a candidate whose natural key is already
present is silently skipped by the conditional insert: no error, no
table change, no unit of count.  The sqlite variant (INSERT OR IGNORE)
satisfies the same counting and skipping behaviour. -/
theorem batch_import_count_exact (t : Table) (batch : List Registro)
    (c : Nat) (t' : Table)
    (h : importBatch t batch = BatchOutcome.committed c t') :
    t'.rows.length = t.rows.length + c ∧
    (∀ s : Table, ∀ r : Registro, ∀ k : String,
      r.nome.isSome = true → r.email.isSome = true → r.cnsCpf = some k →
      s.hasKey k = true →
      pgInsertOnConflictDoNothing s r = Except.ok (s, 0)) ∧
    (∀ s : Table, ∀ b : List Registro,
      ((sqliteImportBatch s b).2).rows.length
        = s.rows.length + (sqliteImportBatch s b).1) ∧
    (∀ s : Table, ∀ r : Registro, ∀ k : String, r.cnsCpf = some k →
      s.hasKey k = true → sqliteInsertOrIgnore s r = (s, 0)) := by
  refine ⟨?_, ?_, ?_, ?_⟩
  · unfold importBatch at h
    cases hloop : importBatchLoop t 0 batch with
    | error e => rw [hloop] at h; exact absurd h (by simp)
    | ok p =>
      obtain ⟨c1, t1⟩ := p
      rw [hloop] at h
      simp at h
      obtain ⟨rfl, rfl⟩ := h
      have := importBatchLoop_len batch t 0 c1 t1 hloop
      omega
  · intro s r k hn he hk hkey
    obtain ⟨vn, hvn⟩ := Option.isSome_iff_exists.mp hn
    obtain ⟨ve, hve⟩ := Option.isSome_iff_exists.mp he
    unfold pgInsertOnConflictDoNothing notNullCheck
    simp [hvn, hve, hk, hkey]
  · intro s b
    exact sqliteImportBatch_len b s
  · intro s r k hk hkey
    unfold sqliteInsertOrIgnore
    rw [hk]
    simp [hkey]

/-- Witness for C1: a batch of two valid candidates, the second
repeating the key of the first, commits with count 1 and one new row. -/
theorem batch_import_count_exact_witness :
    ({ rows := [rowOfRegistro 1 regKey1], nextId := 2 } : Table).rows.length
      = emptyTable.rows.length + 1 :=
  (batch_import_count_exact emptyTable [regKey1, regKey1Other] 1
    { rows := [rowOfRegistro 1 regKey1], nextId := 2 } (by decide)).1

/-- Claim C10: importing an empty candidate list commits: status 201,
a body whose message reports zero imported records, the table left
unchanged, and the command trace reaching COMMIT before the release. -/
theorem batch_import_empty_list (t : Table) :
    batchImportHandler t [] =
      ({ status := 201
         body := Body.json [("message", "0 registros importados com sucesso.")] }, t) ∧
    batchImportTrace t [] =
      [DbEvent.connectEv, DbEvent.beginEv, DbEvent.commitEv, DbEvent.releaseEv] := by
  constructor <;> rfl

/-- Claim C2: the batch is atomic.  When any candidate raises a
non-duplicate error the whole transaction rolls back: the resulting
table is exactly the incoming one (zero rows persist), the call answers
500 with the batch-failure message wrapping the underlying cause text,
and every invocation terminates in one of the two states Committed or
RolledBack (the latter always restoring the incoming table). -/
theorem batch_import_atomic (t : Table) (batch : List Registro)
    (cause : PgError) (t' : Table)
    (h : importBatch t batch = BatchOutcome.rolledBack cause t') :
    t' = t ∧
    batchImportHandler t batch =
      ({ status := 500
         body := Body.json [("message", "Erro durante a importação em massa."),
                            ("error", PgError.message cause)] }, t) ∧
    (∀ s : Table, ∀ b : List Registro,
      (∃ c u, importBatch s b = BatchOutcome.committed c u) ∨
      (∃ e, importBatch s b = BatchOutcome.rolledBack e s)) := by
  have hback : t' = t := by
    unfold importBatch at h
    cases hloop : importBatchLoop t 0 batch with
    | error e => rw [hloop] at h; simp at h; exact h.2.symm
    | ok p => obtain ⟨c1, t1⟩ := p; rw [hloop] at h; exact absurd h (by simp)
  subst hback
  refine ⟨rfl, ?_, ?_⟩
  · unfold batchImportHandler
    rw [h]
  · intro s b
    unfold importBatch
    cases hloop : importBatchLoop s 0 b with
    | error e => right; exact ⟨e, rfl⟩
    | ok p => left; exact ⟨p.1, p.2, rfl⟩

/-- Witness for C2: a one-candidate batch whose candidate has every
field absent violates NOT NULL, and the call rolls back to the empty
table with a 500. -/
theorem batch_import_atomic_witness :
    (batchImportHandler emptyTable [badReg]).1.status = 500 := by
  have h := batch_import_atomic emptyTable [badReg]
    (PgError.notNullViolation "nome") emptyTable (by rfl)
  rw [h.2.1]

/-- Counterexample to C3: a successful one-candidate import answers 201,
but its body has no importedCount field (the count only appears inside
the message text). -/
theorem batch_import_no_count_field :
    (batchImportHandler emptyTable [regKey1]).1.status = 201 ∧
    Body.lookupField (batchImportHandler emptyTable [regKey1]).1.body
      "importedCount" = none ∧
    Body.lookupField (batchImportHandler emptyTable [regKey1]).1.body
      "message" = some "1 registros importados com sucesso." := by
  refine ⟨rfl, rfl, rfl⟩

/-- Claim C3 amended: every successful batch import answers 201 with a
body holding a single message field that embeds the imported count;
there is no separate importedCount field. -/
theorem batch_import_success_response (t : Table) (batch : List Registro)
    (c : Nat) (t' : Table)
    (h : importBatch t batch = BatchOutcome.committed c t') :
    (batchImportHandler t batch).1.status = 201 ∧
    (batchImportHandler t batch).1.body =
      Body.json [("message", toString c ++ " registros importados com sucesso.")] ∧
    Body.lookupField (batchImportHandler t batch).1.body "importedCount" = none ∧
    (batchImportHandler t batch).2 = t' := by
  unfold batchImportHandler
  rw [h]
  refine ⟨rfl, rfl, ?_, rfl⟩
  simp [Body.lookupField, List.lookup]

/-- Witness for the amended C3: the empty batch commits with count 0 and
a 201 status. -/
theorem batch_import_success_response_witness :
    (batchImportHandler emptyTable []).1.status = 201 :=
  (batch_import_success_response emptyTable [] 0 emptyTable (by rfl)).1

/-- Claim C4: candidates are applied in sequence order and the first
occurrence of a natural key wins.  For any batch [A(key 1), B(key 2),
C(key 1)] of well-formed candidates against the empty table, the import
commits with count 2, and the table afterwards holds exactly the rows
built from A and from B (A inserted first); in particular filtering it
by key 1 yields exactly the row carrying the payload of A, not of C. -/
theorem batch_import_first_wins (A B C : Registro) (na ea nb eb nc ec : String)
    (hAn : A.nome = some na) (hAe : A.email = some ea)
    (hBn : B.nome = some nb) (hBe : B.email = some eb)
    (hCn : C.nome = some nc) (hCe : C.email = some ec)
    (hA : A.cnsCpf = some "1") (hB : B.cnsCpf = some "2")
    (hC : C.cnsCpf = some "1") :
    importBatch emptyTable [A, B, C] =
      BatchOutcome.committed 2
        { rows := [rowOfRegistro 1 A, rowOfRegistro 2 B], nextId := 3 } ∧
    List.filter (fun row => row.cnsCpf == "1")
        [rowOfRegistro 1 A, rowOfRegistro 2 B] = [rowOfRegistro 1 A] := by
  constructor
  · simp [importBatch, importBatchLoop, pgInsertOnConflictDoNothing,
      notNullCheck, hAn, hAe, hBn, hBe, hCn, hCe, hA, hB, hC, Table.hasKey,
      Table.insertRow, emptyTable, rowOfRegistro]
  · simp [rowOfRegistro, hA, hB]

/-- Witness for C4: the concrete batch [regA1, regB2, regC1] against the
empty table commits with count 2 and the rows of regA1 and regB2. -/
theorem batch_import_first_wins_witness :
    importBatch emptyTable [regA1, regB2, regC1] =
      BatchOutcome.committed 2
        { rows := [rowOfRegistro 1 regA1, rowOfRegistro 2 regB2], nextId := 3 } :=
  (batch_import_first_wins regA1 regB2 regC1 "Alda" "alda@mail" "Breno"
    "breno@mail" "Cora" "cora@mail" rfl rfl rfl rfl rfl rfl rfl rfl rfl).1

/-- A successful plain INSERT happens only when the key was absent, and
appends exactly the row built from the candidate. -/
theorem pgInsert_ok (t : Table) (r : Registro) (t' : Table) (row : Row)
    (h : pgInsert t r = Except.ok (t', row)) :
    t.hasKey (r.cnsCpf.getD "") = false ∧
    row = rowOfRegistro t.nextId r ∧ t' = t.insertRow row := by
  unfold pgInsert at h
  cases hnc : notNullCheck r with
  | some e => rw [hnc] at h; exact absurd h (by simp)
  | none =>
    rw [hnc] at h
    cases hk : t.hasKey (r.cnsCpf.getD "") with
    | true => rw [hk] at h; exact absurd h (by simp)
    | false =>
      rw [hk] at h
      simp at h
      exact ⟨rfl, h.2.symm, by rw [← h.1, h.2]⟩

/-- One create call preserves the natural-key uniqueness invariant. -/
theorem createHandler_preserves_keysUnique (t : Table) (r : Registro)
    (h : keysUnique t) : keysUnique (createHandler t r).2 := by
  unfold createHandler
  cases hins : pgInsert t r with
  | error e => exact h
  | ok p =>
    obtain ⟨t', row⟩ := p
    obtain ⟨hk, hrow, ht'⟩ := pgInsert_ok t r t' row hins
    subst ht'
    unfold keysUnique Table.insertRow
    rw [List.pairwise_append]
    refine ⟨h, List.pairwise_singleton _ _, ?_⟩
    intro a ha b hb
    simp at hb
    subst hb
    unfold Table.hasKey at hk
    rw [List.any_eq_false] at hk
    have := hk a ha
    simp at this
    rw [hrow]
    unfold rowOfRegistro
    simpa using this

/-- Any sequence of create calls preserves the natural-key uniqueness
invariant. -/
theorem applyCreates_preserves_keysUnique (rs : List Registro) (t : Table)
    (hu : keysUnique t) : keysUnique (applyCreates t rs) := by
  induction rs generalizing t with
  | nil => exact hu
  | cons q qs ih =>
    unfold applyCreates
    exact ih _ (createHandler_preserves_keysUnique t q hu)

/-- Claim C5: the natural-key uniqueness invariant holds after every
sequence of create calls, and a well-formed create attempt whose cnsCpf
equals that of an existing record answers 409 DuplicateKey without
changing the table. -/
theorem create_unique_natural_key (t : Table) (rs : List Registro)
    (r : Registro) (k : String)
    (hu : keysUnique t)
    (hn : r.nome.isSome = true) (he : r.email.isSome = true)
    (hk : r.cnsCpf = some k) (hdup : t.hasKey k = true) :
    keysUnique (applyCreates t rs) ∧
    (createHandler t r).1.status = 409 ∧
    (createHandler t r).2 = t := by
  refine ⟨applyCreates_preserves_keysUnique rs t hu, ?_⟩
  obtain ⟨vn, hvn⟩ := Option.isSome_iff_exists.mp hn
  obtain ⟨ve, hve⟩ := Option.isSome_iff_exists.mp he
  have hins : pgInsert t r =
      Except.error (PgError.uniqueViolation "pessoas_cnscpf_key") := by
    unfold pgInsert notNullCheck
    simp [hvn, hve, hk, hdup]
  unfold createHandler
  rw [hins]
  exact ⟨rfl, rfl⟩

/-- Witness for C5: against a table already holding natural key 9, a
well-formed create with key 9 answers 409 and leaves the table as is. -/
theorem create_unique_natural_key_witness :
    (createHandler tableKey9 regKey9).1.status = 409 ∧
    (createHandler tableKey9 regKey9).2 = tableKey9 :=
  (create_unique_natural_key tableKey9 [] regKey9 "9"
    (by simp [keysUnique, tableKey9]) rfl rfl rfl (by decide)).2

/-- Counterexample to C6: in the sqlite variant a NOT NULL violation is
not a uniqueness violation, yet it carries the generic code
SQLITE_CONSTRAINT and the create catch block therefore reclassifies it
as a 409 DuplicateKey. -/
theorem sqlite_notnull_reclassified_as_duplicate :
    SqliteError.isUniqueViolation
      (SqliteError.constraintNotNull
        "NOT NULL constraint failed: pessoas.cnsCpf") = false ∧
    (sqliteCreateCatch
      (SqliteError.constraintNotNull
        "NOT NULL constraint failed: pessoas.cnsCpf")).status = 409 :=
  ⟨rfl, rfl⟩

/-- Claim C6 amended: the create and update catch blocks answer 409 iff
the error code equals the constraint-violation code the variant tests —
23505 in the pg variants, where that code is carried exactly by
uniqueness violations, and SQLITE_CONSTRAINT in the sqlite variant,
where the same code also covers other constraint violations such as
NOT NULL; every other error passes through as a 500, and every catch
response attaches the original cause message in its error field. -/
theorem create_update_error_classification (e : PgError) (s : SqliteError) :
    ((pgCreateCatch e).status = 409 ↔ PgError.code e = "23505") ∧
    ((pgCreateCatch e).status = 409 ↔ PgError.isUniqueViolation e = true) ∧
    ((pgUpdateCatch e).status = 409 ↔ PgError.isUniqueViolation e = true) ∧
    ((pgCreateCatch e).status = 409 ∨ (pgCreateCatch e).status = 500) ∧
    Body.lookupField (pgCreateCatch e).body "error" = some (PgError.message e) ∧
    Body.lookupField (pgUpdateCatch e).body "error" = some (PgError.message e) ∧
    ((sqliteCreateCatch s).status = 409 ↔ SqliteError.code s = "SQLITE_CONSTRAINT") ∧
    ((sqliteUpdateCatch s).status = 409 ↔ SqliteError.code s = "SQLITE_CONSTRAINT") ∧
    ((sqliteCreateCatch s).status = 409 ∨ (sqliteCreateCatch s).status = 500) ∧
    Body.lookupField (sqliteCreateCatch s).body "error"
      = some (SqliteError.message s) ∧
    Body.lookupField (sqliteUpdateCatch s).body "error"
      = some (SqliteError.message s) := by
  cases e <;> cases s <;>
    simp [pgCreateCatch, pgUpdateCatch, sqliteCreateCatch, sqliteUpdateCatch,
      PgError.code, PgError.isUniqueViolation, PgError.message,
      SqliteError.code, SqliteError.isUniqueViolation, SqliteError.message,
      Body.lookupField, List.lookup]

/-- Counterexample to C7: the 404 NotFound responses of update and
delete carry only a message field, with no error field. -/
theorem notfound_response_lacks_error_field :
    (updateHandler emptyTable 999 regKey2).1.status = 404 ∧
    Body.lookupField (updateHandler emptyTable 999 regKey2).1.body "error"
      = none ∧
    (deleteHandler emptyTable 999).1.status = 404 ∧
    Body.lookupField (deleteHandler emptyTable 999).1.body "error" = none := by
  refine ⟨rfl, rfl, rfl, rfl⟩

/-- Claim C7 amended: every error response of the handlers carries a
message field; the 409 and 500 responses also carry an error field with
the underlying cause text, while the 404 NotFound responses of update
and delete carry only the message. -/
theorem error_response_body_shape (t : Table) (r : Registro) (id : Nat)
    (batch : List Registro) (resp : HttpResponse)
    (hresp : resp ∈ [(createHandler t r).1, (updateHandler t id r).1,
                     (deleteHandler t id).1, (batchImportHandler t batch).1]) :
    (400 ≤ resp.status → (Body.lookupField resp.body "message").isSome = true) ∧
    ((resp.status = 409 ∨ resp.status = 500) →
      (Body.lookupField resp.body "error").isSome = true) ∧
    (resp.status = 404 →
      resp.body = Body.json [("message", "Pessoa não encontrada.")]) := by
  simp only [List.mem_cons, List.not_mem_nil, or_false] at hresp
  rcases hresp with h | h | h | h <;> subst h
  · cases hins : pgInsert t r with
    | ok p =>
      obtain ⟨t2, row2⟩ := p
      simp [createHandler, hins]
    | error e =>
      by_cases hc : PgError.code e = "23505" <;>
        simp [createHandler, hins, pgCreateCatch, hc, Body.lookupField,
          List.lookup]
  · cases hupd : pgUpdate t id r with
    | ok o =>
      cases o with
      | none => simp [updateHandler, hupd, Body.lookupField, List.lookup]
      | some p =>
        obtain ⟨t2, row2⟩ := p
        simp [updateHandler, hupd]
    | error e =>
      by_cases hc : PgError.code e = "23505" <;>
        simp [updateHandler, hupd, pgUpdateCatch, hc, Body.lookupField,
          List.lookup]
  · unfold deleteHandler
    split <;> simp [Body.lookupField, List.lookup]
  · cases hb : importBatch t batch with
    | committed c u =>
      simp [batchImportHandler, hb, Body.lookupField, List.lookup]
    | rolledBack e u =>
      simp [batchImportHandler, hb, Body.lookupField, List.lookup]

/-- Witness for the amended C7: the 404 of an update against the empty
table carries the message-only body. -/
theorem error_response_body_shape_witness :
    (updateHandler emptyTable 999 regKey1).1.body
      = Body.json [("message", "Pessoa não encontrada.")] :=
  (error_response_body_shape emptyTable regKey1 999 []
    (updateHandler emptyTable 999 regKey1).1
    (List.Mem.tail _ (List.Mem.head _))).2.2 (by rfl)

/-- Every command the loop itself issues is an INSERT. -/
theorem importBatchLoopTrace_inserts (rs : List Registro) (t : Table)
    (c : Nat) (ev : DbEvent) (hev : ev ∈ (importBatchLoopTrace t c rs).1) :
    ev = DbEvent.insertEv := by
  induction rs generalizing t c with
  | nil => simp [importBatchLoopTrace] at hev
  | cons r rs ih =>
    unfold importBatchLoopTrace at hev
    cases hins : pgInsertOnConflictDoNothing t r with
    | error e =>
      rw [hins] at hev
      simp at hev
      exact hev
    | ok p =>
      obtain ⟨t1, n⟩ := p
      rw [hins] at hev
      simp at hev
      rcases hev with rfl | hev
      · rfl
      · exact ih t1 (c + n) hev

/-- Claim C8: on every exit path of a batch-import invocation the
transaction reaches COMMIT or ROLLBACK immediately before the session
release, and the release happens exactly once, as the last command. -/
theorem batch_trace_finishes_transaction (t : Table) (batch : List Registro) :
    (∃ pre endCmd, batchImportTrace t batch = pre ++ [endCmd, DbEvent.releaseEv] ∧
      (endCmd = DbEvent.commitEv ∨ endCmd = DbEvent.rollbackEv)) ∧
    (batchImportTrace t batch).count DbEvent.releaseEv = 1 := by
  have hins := importBatchLoopTrace_inserts batch t 0
  have hzero : ((importBatchLoopTrace t 0 batch).1).count DbEvent.releaseEv = 0 := by
    rw [List.count_eq_zero]
    intro hmem
    exact absurd (hins DbEvent.releaseEv hmem) (by simp)
  unfold batchImportTrace
  cases hloop : importBatchLoopTrace t 0 batch with
  | mk evs out =>
    rw [hloop] at hzero
    cases out with
    | ok p =>
      constructor
      · exact ⟨DbEvent.connectEv :: DbEvent.beginEv :: evs, DbEvent.commitEv,
          by simp, Or.inl rfl⟩
      · simp [List.count_cons, List.count_append, hzero]
    | error e =>
      constructor
      · exact ⟨DbEvent.connectEv :: DbEvent.beginEv :: evs, DbEvent.rollbackEv,
          by simp, Or.inr rfl⟩
      · simp [List.count_cons, List.count_append, hzero]

/-- Claim C9: in the extended-schema variant the create INSERT and the
batch-import INSERT, though they list the columns in different orders
(telefone is the 18th column of the first and the 4th of the second),
bind every request field to the column of the same name, so both store
the same row for the same candidate, identifiers apart. -/
theorem ext_create_batch_same_row (id : Nat) (r : ExtRegistro) :
    extRowFromInsert id extCreateCols (extCreateVals r) =
      extRowFromInsert id extBatchCols (extBatchVals r) ∧
    extCreateCols.indexOf "telefone" = 17 ∧
    extBatchCols.indexOf "telefone" = 3 := by
  refine ⟨rfl, by decide, by decide⟩
